import Mathlib

/-!
Verification of the SGNMT length-predictor module
(`cam/sgnmt/predictors/length.py`).

Score conventions: scores that the Python code manipulates only
structurally (parsed file scores, word-count penalties, discount
factors) are modelled as rationals; scores produced by transcendental
functions (log, lgamma, logistic) are modelled as real numbers.  The
Python sentinel `float("-inf")` is modelled as the bottom element of a
`WithBot` carrier where a claim depends on it.
-/

namespace Sgnmt

/-- Modelled from the spec: the module `cam/sgnmt/utils.py` is not under
`src/`; per §6 of the spec, the reserved vocabulary ids (unknown,
start-of-sequence, end-of-sequence) are shared constants.  The concrete
values follow the SGNMT convention; the claims proved below only rely
on the three ids being fixed and distinct. -/
def UNK_ID : ℕ := 0

/-- Modelled from the spec: start-of-sequence id (see `UNK_ID`). -/
def GO_ID : ℕ := 1

/-- Modelled from the spec: end-of-sequence id (see `UNK_ID`). -/
def EOS_ID : ℕ := 2

/-- Modelled from the spec: `utils.EPS_P`, the clamp applied to the
negative-binomial success probability p (§4.3: `clamp(sigmoid(...),
EPS_P, 1-EPS_P)`).  No claim depends on its concrete value. -/
noncomputable def EPS_P : ℝ := 1 / 100000

/-- `EPS_R` from the source (`length.py`, line 38). -/
noncomputable def EPS_R : ℝ := 1 / 10

/-- `np.dot` on two equal-length real vectors. -/
noncomputable def dotR (xs ys : List ℝ) : ℝ :=
  (List.zipWith (fun a b => a * b) xs ys).sum

/-- `scipy.special.gammaln` for positive arguments: log of the Gamma
function. -/
noncomputable def lgamma (x : ℝ) : ℝ := Real.log (Real.Gamma x)

/-- `scipy.special.logsumexp` on a list of reals. -/
noncomputable def logsumexp (l : List ℝ) : ℝ :=
  Real.log ((l.map Real.exp).sum)

/-- Python `int(x)`: truncation toward zero. -/
noncomputable def pyInt (x : ℝ) : ℤ := if 0 ≤ x then ⌊x⌋ else ⌈x⌉

/-- Python list slice `l[-m:]`.  For `m = 0` the slice is `l[0:]`, the
whole list — this `-0` corner is load-bearing for claim C5. -/
def pyTailSlice (m : ℕ) (l : List α) : List α :=
  if m = 0 then l else l.drop (l.length - m)

/-- Python list slice `l[i:-1]` (all but the last element, starting at
`i`). -/
def pyMidSlice (i : ℕ) (l : List α) : List α := (l.drop i).dropLast

/-! ### Association-list dictionaries

Python `dict`s keyed by vocabulary ids are modelled as insertion-ordered
association lists: new keys are appended, existing keys updated in
place, mirroring Python 3.7+ dict semantics. -/

/-- Python `d.get(k)` / `d[k]`-with-check: value of the first (and, for
dict-built lists, only) binding of `k`. -/
def dictGet (d : List (ℕ × α)) (k : ℕ) : Option α :=
  (d.find? (fun p => p.1 = k)).map (fun p => p.2)

/-- Python `d[k] = d.get(k, 0) + v` on a rational-valued dict. -/
def dictAdd (d : List (ℕ × ℚ)) (k : ℕ) (v : ℚ) : List (ℕ × ℚ) :=
  if (d.find? (fun p => p.1 = k)).isSome then
    d.map (fun p => if p.1 = k then (p.1, p.2 + v) else p)
  else
    d ++ [(k, v)]

/-- Python `d[k] = v` (insert or overwrite). -/
def dictSet (d : List (ℕ × α)) (k : ℕ) (v : α) : List (ℕ × α) :=
  if (d.find? (fun p => p.1 = k)).isSome then
    d.map (fun p => if p.1 = k then (p.1, v) else p)
  else
    d ++ [(k, v)]

/-! ### Trie -/

/-- Modelled from the spec: `SimpleTrie` (`cam/sgnmt/misc/trie.py`) is
not under `src/`.  Per §4.2 the trie maps a sequence of integer tokens
to an arbitrary value, `add` inserts or overwrites, `get` is exact-key
lookup returning the value or absent.  The prefix-tree layout is a
complexity optimization irrelevant to the claims; the model stores the
key-value pairs directly, latest insertion first. -/
def Trie (α : Type) : Type := List (List ℕ × α)

/-- Trie exact-key lookup (`SimpleTrie.get`). -/
def Trie.get (t : Trie α) (k : List ℕ) : Option α :=
  (List.find? (fun p => p.1 = k) t).map (fun p => p.2)

/-- Trie insert-or-overwrite (`SimpleTrie.add`). -/
def Trie.add (t : Trie α) (k : List ℕ) (v : α) : Trie α :=
  (k, v) :: List.filter (fun p => ¬(p.1 = k)) t

/-- Empty trie. -/
def Trie.empty : Trie α := []

/-! ## NBLengthPredictor -/

/-- `NUM_FEATURES` from the source (`length.py`, line 37). -/
def NUM_FEATURES : ℕ := 5

/-- Python `str.isspace`-style whitespace test used by `str.split()` and
`str.strip()` (ASCII whitespace; the additional Unicode whitespace
accepted by Python is irrelevant to the claims). -/
def pyIsSpace (c : Char) : Bool :=
  c = ' ' || c = '\t' || c = '\n' || c = '\r' || c = '\x0b' || c = '\x0c'

/-- Helper for `splitWs`: `acc` holds the current word, reversed. -/
def splitWsAux : List Char → List Char → List (List Char)
  | [], acc => if acc.isEmpty then [] else [acc.reverse]
  | c :: cs, acc =>
    if pyIsSpace c then
      if acc.isEmpty then splitWsAux cs [] else acc.reverse :: splitWsAux cs []
    else
      splitWsAux cs (c :: acc)

/-- Python `str.split()` with no argument: split on whitespace runs,
discarding empty words. -/
def splitWs (s : List Char) : List (List Char) := splitWsAux s []

/-- Python `str.strip()`: drop leading and trailing whitespace. -/
def pyStrip (s : List Char) : List Char :=
  ((s.dropWhile (fun c => pyIsSpace c)).reverse.dropWhile
    (fun c => pyIsSpace c)).reverse

/-- `NBLengthPredictor._analyse_sentence`: the five features of one
source line.  The two per-word ratios divide by the word count; Python
raises `ZeroDivisionError` when it is zero, modelled as `none`. -/
def nbAnalyseSentence (sentence : List Char) : Option (List ℚ) :=
  let nChar : ℚ := sentence.length
  let nWords : ℚ := (splitWs sentence).length
  let nPunct : ℚ :=
    (([',', '.', ':', ';', '-']).map (fun p => (sentence.count p : ℚ))).sum
  if nWords = 0 then none
  else some [nChar, nWords, nPunct, nChar / nWords, nPunct / nWords]

/-- `NBLengthPredictor._extract_features`: features of every line of the
source text file, appended line by line (each line stripped first, as
in the source); the first failing line aborts extraction. -/
def nbExtractFeatures : List (List Char) → Option (List (List ℚ))
  | [] => some []
  | l :: rest =>
    match nbAnalyseSentence (pyStrip l), nbExtractFeatures rest with
    | some f, some fs => some (f :: fs)
    | _, _ => none

/-- `NBLengthPredictor.__init__`, weight processing, first half: a
length-10 weight list gets two zero biases appended (`length.py`,
lines 122-124). -/
def nbSetupWeights (w : List ℚ) : List ℚ :=
  if w.length = 2 * NUM_FEATURES then w ++ [0, 0] else w

/-- `NBLengthPredictor.__init__`, lines 125-127: a `logging.fatal` call
is emitted when the adjusted weight list does not have length 12.
`logging.fatal` is an alias of `logging.critical`: it logs and returns,
it does not raise or exit. -/
def nbFatalLogged (w : List ℚ) : Bool :=
  (nbSetupWeights w).length ≠ 2 * NUM_FEATURES + 2

/-- `NBLengthPredictor.__init__`, lines 128-129: split the (adjusted)
weight list into `r_weights` (`w[0:5] + [w[-2]]`) and `p_weights`
(`w[5:10] + [w[-1]]`).  Negative indexing raises `IndexError` when the
list has fewer than two entries, modelled as `none`; for any longer
list the slices succeed regardless of the expected length 12. -/
def nbMakeWeights (w : List ℚ) : Option (List ℚ × List ℚ) :=
  let w' := nbSetupWeights w
  if 2 ≤ w'.length then
    some (w'.take NUM_FEATURES ++ [w'.getD (w'.length - 2) 0],
          (w'.drop NUM_FEATURES).take NUM_FEATURES ++ [w'.getD (w'.length - 1) 0])
  else none

/-- Static configuration of an `NBLengthPredictor` instance, as left by
`__init__`. -/
structure NBConfig where
  usePointProbs : Bool
  offset : ℤ
  rWeights : List ℝ
  pWeights : List ℝ
  srcFeatures : List (List ℚ)

/-- `NBLengthPredictor.__init__` in full: weight processing followed by
feature extraction from the text file; either step can fail
(`IndexError` and `ZeroDivisionError` respectively). -/
noncomputable def nbConstruct (textLines : List (List Char)) (modelWeights : List ℚ)
    (usePointProbs : Bool) (offset : ℤ) : Option NBConfig := do
  let ws ← nbMakeWeights modelWeights
  let feats ← nbExtractFeatures textLines
  pure { usePointProbs := usePointProbs, offset := offset,
         rWeights := ws.1.map (fun q => (q : ℝ)),
         pWeights := ws.2.map (fun q => (q : ℝ)),
         srcFeatures := feats }

/-- Per-sentence state of an `NBLengthPredictor`.  `usePointProbs`,
`offset`, `curR`, `curP` and `maxEosProb` are fixed by construction and
`initialize`; `nConsumed` and `prevEosProbs` are the mutable snapshot
covered by `get_state`/`set_state`. -/
structure NBState where
  usePointProbs : Bool
  offset : ℤ
  curR : ℝ
  curP : ℝ
  maxEosProb : ℝ
  nConsumed : ℕ
  prevEosProbs : List ℝ

/-- `NBLengthPredictor._get_eos_point_prob`: the negative-binomial point
log-pmf (`length.py`, lines 189-194). -/
noncomputable def nbGetEosPointProb (r p : ℝ) (n : ℤ) : ℝ :=
  lgamma ((n : ℝ) + r) - lgamma ((n : ℝ) + 1) - lgamma r
    + (n : ℝ) * Real.log p + r * Real.log (1 - p)

/-- One iteration budget of `NBLengthPredictor._get_max_eos_prob`: the
source scans n = 1, 2, ... while the point pmf keeps attaining the
running maximum; termination is data-dependent (the pmf eventually
decreases), represented by the `fuel` argument.  Only used by point
mode of `initialize`; no claim below depends on the scanned value. -/
noncomputable def nbMaxEosLoop (r p : ℝ) : ℕ → ℕ → WithBot ℝ → WithBot ℝ → WithBot ℝ
  | 0, _, _, maxProb => maxProb
  | fuel + 1, n, nProb, maxProb =>
    if nProb = maxProb then
      let nProb' : WithBot ℝ := ((nbGetEosPointProb r p (n + 1) : ℝ) : WithBot ℝ)
      nbMaxEosLoop r p fuel (n + 1) nProb' (max maxProb nProb')
    else maxProb

/-- `NBLengthPredictor.initialize`: compute `cur_r`, `cur_p` from the
stored features of the current sentence, reset the counters.  In point
mode the source additionally runs the `_get_max_eos_prob` scan (see
`nbMaxEosLoop`); its value is only read back through the `maxEosProb`
state field, over which every theorem below quantifies, so the field is
initialized to an arbitrary real here. -/
noncomputable def nbInit (cfg : NBConfig) (senId : ℕ) : NBState :=
  let feat : List ℝ :=
    ((cfg.srcFeatures.getD senId []).map (fun q => (q : ℝ))) ++ [1]
  let p0 := dotR feat cfg.pWeights
  { usePointProbs := cfg.usePointProbs, offset := cfg.offset,
    curR := max EPS_R (dotR feat cfg.rWeights),
    curP := max EPS_P (min (1 - EPS_P) (1 / (1 + Real.exp (-p0)))),
    maxEosProb := 0,
    nConsumed := 0, prevEosProbs := [] }

/-- `NBLengthPredictor._get_eos_prob` (`length.py`, lines 173-187).
Returns the EOS score and the successor state: in proper-probability
mode the source appends the point estimate to `prev_eos_probs`. -/
noncomputable def nbGetEosProb (st : NBState) : ℝ × NBState :=
  let epp := nbGetEosPointProb st.curR st.curP
    (max 1 ((st.nConsumed : ℤ) - st.offset))
  if st.usePointProbs then (epp - st.maxEosProb, st)
  else
    match st.prevEosProbs with
    | [] => (epp, { st with prevEosProbs := [epp] })
    | _ :: _ =>
      let prevSum := logsumexp st.prevEosProbs
      (epp - Real.log (1 - Real.exp prevSum),
       { st with prevEosProbs := st.prevEosProbs ++ [epp] })

/-- `NBLengthPredictor.predict_next`: a singleton posterior for EOS. -/
noncomputable def nbPredictNext (st : NBState) :
    List (ℕ × WithBot ℝ) × NBState :=
  if st.nConsumed = 0 then ([(EOS_ID, (⊥ : WithBot ℝ))], st)
  else
    let r := nbGetEosProb st
    ([(EOS_ID, ((r.1 : ℝ) : WithBot ℝ))], r.2)

/-- `NBLengthPredictor.get_unk_probability`.  Reading a missing EOS key
from the posterior would raise `KeyError`, modelled as `none`. -/
noncomputable def nbGetUnkProbability (st : NBState)
    (posterior : List (ℕ × WithBot ℝ)) : Option (WithBot ℝ) :=
  if st.usePointProbs then
    some (if st.nConsumed = 0 then ((st.maxEosProb : ℝ) : WithBot ℝ) else 0)
  else if st.nConsumed = 0 then some 0
  else
    (dictGet posterior EOS_ID).map (fun v =>
      WithBot.recBotCoe (0 : WithBot ℝ)
        (fun x => ((Real.log (1 - Real.exp x) : ℝ) : WithBot ℝ)) v)

/-- `NBLengthPredictor.consume`. -/
def nbConsume (st : NBState) : NBState :=
  { st with nConsumed := st.nConsumed + 1 }

/-- `NBLengthPredictor.get_state`. -/
def nbGetState (st : NBState) : ℕ × List ℝ := (st.nConsumed, st.prevEosProbs)

/-- `NBLengthPredictor.set_state`. -/
def nbSetState (s : ℕ × List ℝ) (st : NBState) : NBState :=
  { st with nConsumed := s.1, prevEosProbs := s.2 }

/-- `NBLengthPredictor.is_equal`: compares the consumed counts only. -/
def nbIsEqual (s1 s2 : ℕ × List ℝ) : Bool := s1.1 = s2.1

/-! ## WordCountPredictor -/

/-- Static data of a `WordCountPredictor`: the constant posterior and
the constant unknown-token fallback chosen by `__init__`.  The predictor
has no mutable per-sentence state. -/
structure WCConfig where
  posterior : List (ℕ × ℚ)
  unkProb : ℚ

/-- `load_external_ids` plus the `range`-based nonterminal-id set of
`WordCountPredictor.__init__` / `WeightNonTerminalPredictor.__init__`:
an explicit id list when given, otherwise the ids outside the
`[min_terminal_id, max_terminal_id]` span. -/
def ntIdSet (ntIds : Option (List ℕ)) (minTerminalId maxTerminalId vocabSize : ℕ) :
    List ℕ :=
  match ntIds with
  | some ids => ids
  | none =>
    List.range minTerminalId ++
      List.range' (maxTerminalId + 1) (vocabSize - (maxTerminalId + 1))

/-- `WordCountPredictor.__init__`: the three mutually exclusive
configurations (nonterminal-range penalty / all-words penalty /
single-word penalty). -/
def wcInit (word : ℤ) (nonterminalPenalty : Bool) (ntIds : Option (List ℕ))
    (minTerminalId maxTerminalId : ℕ) (negativeWc : Bool) (vocabSize : ℕ) :
    WCConfig :=
  let val : ℚ := if negativeWc then -1 else 1
  if nonterminalPenalty then
    let nts := ntIdSet ntIds minTerminalId maxTerminalId vocabSize
    let post := nts.foldl (fun d nt => dictSet d nt val) []
    { posterior := dictSet (dictSet post EOS_ID 0) UNK_ID 0, unkProb := 0 }
  else if word < 0 then
    { posterior := [(EOS_ID, 0)], unkProb := val }
  else
    { posterior := [(word.toNat, val)], unkProb := 0 }

/-- `WordCountPredictor.predict_next`: the stored posterior. -/
def wcPredictNext (cfg : WCConfig) : List (ℕ × ℚ) := cfg.posterior

/-- `WordCountPredictor.get_unk_probability`. -/
def wcGetUnkProbability (cfg : WCConfig) : ℚ := cfg.unkProb

/-- `WordCountPredictor.get_state`: the constant `True`. -/
def wcGetState (_cfg : WCConfig) : Bool := true

/-- `WordCountPredictor.set_state`: a no-op. -/
def wcSetState (_s : Bool) (cfg : WCConfig) : WCConfig := cfg

/-- `WordCountPredictor.is_equal`: always true. -/
def wcIsEqual (_s1 _s2 : Bool) : Bool := true

/-! ## WeightNonTerminalPredictor

The decorator owns a slave predictor; its operations are parametrized by
the slave's operations (state type `σ`, snapshot type `τ`, score
type `α`). -/

/-- `WeightNonTerminalPredictor.__init__`: the token → factor map, with
EOS and UNK pinned to factor 1. -/
def wntInit [One α] (penaltyFactor : α) (ntIds : Option (List ℕ))
    (minTerminalId maxTerminalId vocabSize : ℕ) : List (ℕ × α) :=
  let nts := ntIdSet ntIds minTerminalId maxTerminalId vocabSize
  let mult := nts.foldl (fun d tok => dictSet d tok penaltyFactor) []
  dictSet (dictSet mult EOS_ID 1) UNK_ID 1

/-- Body of the `predict_next` loop of `WeightNonTerminalPredictor`:
each posterior entry whose key is in the factor map is multiplied by its
factor (`posterior[tok] *= self.mult[tok]`). -/
def wntApplyMult [Mul α] (mult : List (ℕ × α)) (post : List (ℕ × α)) :
    List (ℕ × α) :=
  post.map (fun p =>
    match dictGet mult p.1 with
    | some m => (p.1, p.2 * m)
    | none => p)

/-- `WeightNonTerminalPredictor.predict_next`: delegate to the slave,
then reweight the returned posterior. -/
def wntPredictNext [Mul α] (slavePredict : σ → List (ℕ × α) × σ)
    (mult : List (ℕ × α)) (s : σ) : List (ℕ × α) × σ :=
  let r := slavePredict s
  (wntApplyMult mult r.1, r.2)

/-- `WeightNonTerminalPredictor.get_state`: delegation. -/
def wntGetState (slaveGet : σ → τ) (s : σ) : τ := slaveGet s

/-- `WeightNonTerminalPredictor.set_state`: delegation. -/
def wntSetState (slaveSet : τ → σ → σ) (t : τ) (s : σ) : σ := slaveSet t s

/-- `WeightNonTerminalPredictor.is_equal`: delegation. -/
def wntIsEqual (slaveIsEqual : τ → τ → Bool) (s1 s2 : τ) : Bool :=
  slaveIsEqual s1 s2

/-! ## ExternalLengthPredictor -/

/-- Per-sentence state of an `ExternalLengthPredictor` after
`initialize`: the sentence's length → score dict, its largest tabulated
length, and the consumed-word counter. -/
structure ExtState where
  curScores : List (ℕ × ℚ)
  maxLength : ℕ
  nConsumed : ℕ

/-- One line of `load_external_lengths`: each whitespace-separated item
is either `<length>:<score>` (a parsed pair) or a bare `<length>`
(score defaulting to 0), accumulated into a dict. -/
def loadExternalLengthsLine (pairs : List (ℕ × Option ℚ)) : List (ℕ × ℚ) :=
  pairs.foldl (fun d p => dictSet d p.1 (p.2.getD 0)) []

/-- `ExternalLengthPredictor.initialize`: select the sentence's dict and
record `max_length = max(cur_scores)`.  Python `max` of an empty dict
raises `ValueError`, modelled as `none`. -/
def extInit (line : List (ℕ × Option ℚ)) : Option ExtState :=
  let scores := loadExternalLengthsLine line
  match (scores.map (fun p => p.1)).max? with
  | none => none
  | some m => some { curScores := scores, maxLength := m, nConsumed := 0 }

/-- `ExternalLengthPredictor.predict_next`: the tabulated score for the
current consumed count if present, `-inf` otherwise, always keyed by
EOS. -/
def extPredictNext (st : ExtState) : List (ℕ × WithBot ℚ) × ExtState :=
  (match dictGet st.curScores st.nConsumed with
   | some q => [(EOS_ID, (q : WithBot ℚ))]
   | none => [(EOS_ID, (⊥ : WithBot ℚ))], st)

/-- `ExternalLengthPredictor.get_unk_probability`: 0 while below the
largest tabulated length, `-inf` from there on. -/
def extGetUnkProbability (st : ExtState) : WithBot ℚ :=
  if st.nConsumed < st.maxLength then 0 else ⊥

/-- `ExternalLengthPredictor.consume`. -/
def extConsume (st : ExtState) : ExtState :=
  { st with nConsumed := st.nConsumed + 1 }

/-- `ExternalLengthPredictor.get_state`. -/
def extGetState (st : ExtState) : ℕ := st.nConsumed

/-- `ExternalLengthPredictor.set_state`. -/
def extSetState (n : ℕ) (st : ExtState) : ExtState :=
  { st with nConsumed := n }

/-- `ExternalLengthPredictor.is_equal`. -/
def extIsEqual (s1 s2 : ℕ) : Bool := s1 = s2

/-! ## NgramCountPredictor

An n-gram file is modelled at the parsed level: a list of lines, each a
token sequence paired with its score. -/

/-- Result of `NgramCountPredictor._load_posteriors`: the longest
context seen and the context → (token → score) trie. -/
structure NgcLoadResult where
  maxHistoryLen : ℕ
  ngrams : Trie (List (ℕ × ℚ))

/-- The line loop of `_load_posteriors` (`length.py`, lines 516-531):
skip lines filtered by `order`, skip n-grams ending in the
start-of-sequence id, track the longest context, and store each
(context, last-token) score in the trie.  `words[-1]` on an empty token
list raises `IndexError`, modelled as `none`. -/
def ngcLoadLines (order : ℕ) : List (List ℕ × ℚ) → NgcLoadResult →
    Option NgcLoadResult
  | [], acc => some acc
  | (words, score) :: rest, acc =>
    if 0 < order ∧ words.length ≠ order then ngcLoadLines order rest acc
    else
      match words.getLast? with
      | none => none
      | some lastWord =>
        if lastWord = GO_ID then ngcLoadLines order rest acc
        else
          let hist := words.dropLast
          let ngrams' :=
            match acc.ngrams.get hist with
            | some (q :: qs) => acc.ngrams.add hist (dictSet (q :: qs) lastWord score)
            | _ => acc.ngrams.add hist [(lastWord, score)]
          ngcLoadLines order rest
            { maxHistoryLen := max acc.maxHistoryLen hist.length,
              ngrams := ngrams' }

/-- `NgramCountPredictor._load_posteriors` from an empty accumulator. -/
def ngcLoad (order : ℕ) (fileLines : List (List ℕ × ℚ)) : Option NgcLoadResult :=
  ngcLoadLines order fileLines { maxHistoryLen := 0, ngrams := Trie.empty }

/-- Per-sentence-constant data of a `NgramCountPredictor`: the
configured order and discount factor, and the trie and longest context
loaded by `initialize`. -/
structure NgcConfig where
  order : ℕ
  discountFactor : ℚ
  maxHistoryLen : ℕ
  ngrams : Trie (List (ℕ × ℚ))

/-- Mutable state of a `NgramCountPredictor`: the bounded history and
the discount trie. -/
structure NgcState where
  curHistory : List ℕ
  discounts : Trie (List (ℕ × ℚ))

/-- `NgramCountPredictor.initialize`, state part: history reset to the
start-of-sequence id, empty discount trie. -/
def ngcInit : NgcState :=
  { curHistory := [GO_ID], discounts := Trie.empty }

/-- Python truthiness of a trie lookup result: absent keys and empty
dicts are both falsy. -/
def trieTruthy (t : Trie (List (ℕ × ℚ))) (k : List ℕ) : Bool :=
  match t.get k with
  | some (_ :: _) => true
  | _ => false

/-- `NgramCountPredictor.predict_next` (`length.py`, lines 491-509):
for every suffix of the current history, longest last in the source's
`reversed` iteration order (the source iterates `i` from `len` down to
0, i.e. shortest suffix first), add the trie's scores for that context
into the posterior, discounted per (context, word) when discounting is
enabled. -/
def ngcPredictNext (cfg : NgcConfig) (st : NgcState) :
    List (ℕ × ℚ) × NgcState :=
  (((List.range (st.curHistory.length + 1)).reverse).foldl
    (fun posterior i =>
      match cfg.ngrams.get (st.curHistory.drop i) with
      | some (sc :: scs) =>
        let factors : Option (List (ℕ × ℚ)) :=
          if 0 ≤ cfg.discountFactor then st.discounts.get (st.curHistory.drop i)
          else none
        match factors with
        | some (f :: fs) =>
          (sc :: scs).foldl
            (fun p wv => dictAdd p wv.1 (((dictGet (f :: fs) wv.1).getD 1) * wv.2))
            posterior
        | _ =>
          (sc :: scs).foldl (fun p wv => dictAdd p wv.1 wv.2) posterior
      | _ => posterior)
    [], st)

/-- `NgramCountPredictor.get_unk_probability`: always 0. -/
def ngcGetUnkProbability (_cfg : NgcConfig) (_st : NgcState) : ℚ := 0

/-- `NgramCountPredictor.consume` (`length.py`, lines 543-561): append
the word, truncate via the Python slice `[-max_history_len:]` when the
history grew beyond `max_history_len`, then, if discounting is enabled,
multiply the discount factor of every (suffix-context, word) pair of
the new history. -/
def ngcConsume (cfg : NgcConfig) (w : ℕ) (st : NgcState) : NgcState :=
  let h0 := st.curHistory ++ [w]
  let h := if cfg.maxHistoryLen < h0.length then pyTailSlice cfg.maxHistoryLen h0
           else h0
  let discounts :=
    if 0 ≤ cfg.discountFactor then
      (List.range h.length).foldl
        (fun d i =>
          let key := pyMidSlice i h
          let factors :=
            match Trie.get d key with
            | some (f :: fs) =>
              dictSet (f :: fs) w (((dictGet (f :: fs) w).getD 1) * cfg.discountFactor)
            | _ => [(w, cfg.discountFactor)]
          Trie.add d key factors)
        st.discounts
    else st.discounts
  { curHistory := h, discounts := discounts }

/-- `NgramCountPredictor.get_state`. -/
def ngcGetState (st : NgcState) : List ℕ × Trie (List (ℕ × ℚ)) :=
  (st.curHistory, st.discounts)

/-- `NgramCountPredictor.set_state`. -/
def ngcSetState (s : List ℕ × Trie (List (ℕ × ℚ))) (_st : NgcState) : NgcState :=
  { curHistory := s.1, discounts := s.2 }

/-- `NgramCountPredictor.is_equal` (`length.py`, lines 571-597): always
false when discounting is enabled; otherwise equal histories are equal,
and differing histories are equal exactly when no aligned suffix pair
differs on a trie-present context and the longer history's extra
suffixes are all absent from the trie. -/
def ngcIsEqual (cfg : NgcConfig) (s1 s2 : List ℕ × Trie (List (ℕ × ℚ))) : Bool :=
  if 0 ≤ cfg.discountFactor then false
  else
    let hist1 := s1.1
    let hist2 := s2.1
    if hist1 = hist2 then true
    else
      let histLong := if hist2.length < hist1.length then hist1 else hist2
      let minLen := min hist1.length hist2.length
      ((List.range' 1 minLen).all (fun n =>
        let key1 := pyTailSlice n hist1
        let key2 := pyTailSlice n hist2
        decide (key1 = key2) ||
          (!(trieTruthy cfg.ngrams key1) && !(trieTruthy cfg.ngrams key2)))) &&
      ((List.range' (minLen + 1) (histLong.length - minLen)).all (fun n =>
        !(trieTruthy cfg.ngrams (pyTailSlice n histLong))))

/-! ## UnkCountPredictor -/

/-- Static configuration of an `UnkCountPredictor`. -/
structure UnkConfig where
  lambdas : List ℝ
  srcVocabSize : ℕ

/-- Per-sentence state of an `UnkCountPredictor`. -/
structure UnkState where
  l : ℝ
  nConsumed : ℕ
  nUnk : ℕ
  unkProb : ℝ
  maxProbIdx : ℤ
  maxProb : ℝ
  consumedProb : ℝ

/-- `UnkCountPredictor._get_poisson_prob`: the Poisson point log-pmf
`n·ln(λ) − λ − Σ_{i<n} ln(i+1)`. -/
noncomputable def getPoissonProb (l : ℝ) (n : ℤ) : ℝ :=
  (n : ℝ) * Real.log l - l -
    ((List.range n.toNat).map (fun i => Real.log ((i : ℝ) + 1))).sum

/-- The source-sentence unknown count of `UnkCountPredictor.initialize`
(`length.py`, lines 644-645): tokens equal to `UNK_ID` or above the
source vocabulary size. -/
def unkSrcNUnk (cfg : UnkConfig) (srcSentence : List ℕ) : ℕ :=
  (srcSentence.filter (fun w => w = UNK_ID ∨ cfg.srcVocabSize < w)).length

/-- The λ bucket selected by `UnkCountPredictor.initialize`
(`length.py`, line 646): `lambdas[min(len(lambdas)-1, src_n_unk)]`.
(`lambdas` is nonempty for every constructed instance — `__init__`
reads `lambdas[0]` — so the `getD` default is never taken there.) -/
noncomputable def unkLambda (cfg : UnkConfig) (srcSentence : List ℕ) : ℝ :=
  cfg.lambdas.getD (min (cfg.lambdas.length - 1) (unkSrcNUnk cfg srcSentence)) 0

/-- `UnkCountPredictor.initialize` (`length.py`, lines 638-657): select
the λ bucket by the source unknown count (clamped to the last bucket),
reset the counters, set `unk_prob` to the one-unknown point log-prob,
and determine the discrete mode by comparing the pmf at `int(λ)` and
`int(λ)+1`. -/
noncomputable def unkInit (cfg : UnkConfig) (srcSentence : List ℕ) : UnkState :=
  let l := unkLambda cfg srcSentence
  let maxProbIdx0 := pyInt l
  let maxProb0 := getPoissonProb l maxProbIdx0
  let ceilProb := getPoissonProb l (maxProbIdx0 + 1)
  if maxProb0 < ceilProb then
    { l := l, nConsumed := 0, nUnk := 0, unkProb := getPoissonProb l 1,
      maxProbIdx := maxProbIdx0 + 1, maxProb := ceilProb,
      consumedProb := ceilProb }
  else
    { l := l, nConsumed := 0, nUnk := 0, unkProb := getPoissonProb l 1,
      maxProbIdx := maxProbIdx0, maxProb := maxProb0,
      consumedProb := maxProb0 }

/-- `UnkCountPredictor.predict_next` (`length.py`, lines 630-636). -/
noncomputable def unkPredictNext (st : UnkState) : List (ℕ × ℝ) × UnkState :=
  (if st.nConsumed = 0 then [(EOS_ID, st.unkProb)]
   else if (st.nUnk : ℤ) < st.maxProbIdx then [(EOS_ID, st.unkProb - st.maxProb)]
   else [(UNK_ID, st.unkProb - st.consumedProb)], st)

/-- `UnkCountPredictor.get_unk_probability`: the mode log-prob at step
zero, 0 afterwards. -/
noncomputable def unkGetUnkProbability (st : UnkState) : ℝ :=
  if st.nConsumed = 0 then st.maxProb else 0

/-- `UnkCountPredictor.consume` (`length.py`, lines 663-674). -/
noncomputable def unkConsume (w : ℕ) (st : UnkState) : UnkState :=
  let st1 := { st with nConsumed := st.nConsumed + 1 }
  if w = UNK_ID then
    let st2 :=
      if st1.maxProbIdx ≤ (st1.nUnk : ℤ) then { st1 with consumedProb := st1.unkProb }
      else st1
    { st2 with nUnk := st2.nUnk + 1,
               unkProb := getPoissonProb st2.l ((st2.nUnk : ℤ) + 1 + 1) }
  else st1

/-- `UnkCountPredictor.get_state`. -/
def unkGetState (st : UnkState) : ℕ × ℕ × ℝ × ℝ :=
  (st.nUnk, st.nConsumed, st.unkProb, st.consumedProb)

/-- `UnkCountPredictor.set_state`. -/
def unkSetState (s : ℕ × ℕ × ℝ × ℝ) (st : UnkState) : UnkState :=
  { st with nUnk := s.1, nConsumed := s.2.1, unkProb := s.2.2.1,
            consumedProb := s.2.2.2 }

/-- `UnkCountPredictor.is_equal`: tuple equality on the snapshots.  The
snapshot contains real-valued fields, so the comparison is a
proposition (IEEE NaN artifacts are outside the embedding). -/
def unkIsEqual (s1 s2 : ℕ × ℕ × ℝ × ℝ) : Prop := s1 = s2

/-! ## NgramizePredictor

The wrapped slave predictor works on dense posteriors (numpy arrays in
the source, modelled as real-valued lists) and is abstracted by its
four operations over an arbitrary state type `σ`. -/

/-- Operations of a slave predictor wrapped by `NgramizePredictor`. -/
structure SlavePred (σ : Type) where
  initFn : List ℕ → σ → σ
  predictFn : σ → List ℝ × σ
  unkFn : σ → List ℝ → ℝ
  consumeFn : ℕ → σ → σ

/-- Modelled from the spec: `utils.argmax` is not under `src/`.  On a
dense posterior it returns the first index attaining the maximum
(`numpy.argmax` semantics; §4.9: "pick its arg-max token"). -/
noncomputable def argmaxAux : List ℝ → ℕ → ℕ → ℝ → ℕ
  | [], _, bestIdx, _ => bestIdx
  | y :: ys, i, bestIdx, bestVal =>
    if bestVal < y then argmaxAux ys (i + 1) i y
    else argmaxAux ys (i + 1) bestIdx bestVal

/-- First index of the maximum of a dense posterior (see `argmaxAux`). -/
noncomputable def argmaxVec : List ℝ → ℕ
  | [] => 0
  | x :: xs => argmaxAux xs 1 0 x

/-- Modelled from the spec: `utils.common_get` is not under `src/`.  On
a dense posterior it returns the entry at the index when in range, the
default otherwise. -/
def commonGet (arr : List ℝ) (k : ℕ) (default : ℝ) : ℝ := arr.getD k default

/-- Static configuration of a `NgramizePredictor`. -/
structure NgzConfig where
  minOrder : ℕ
  maxHistoryLength : ℕ
  maxLenFactor : ℕ

/-- `NgramizePredictor.__init__`: `max_order` must be positive and at
least `min_order` (otherwise `AttributeError`); the history bound is
`max_order − 1` and the effective minimum order is `max(1, min_order)`. -/
def ngzConstruct (minOrder maxOrder maxLenFactor : ℕ) : Option NgzConfig :=
  if maxOrder < 1 then none
  else if maxOrder < minOrder then none
  else some { minOrder := max 1 minOrder,
              maxHistoryLength := maxOrder - 1,
              maxLenFactor := maxLenFactor }

/-- Per-sentence state of a `NgramizePredictor`: the recorded greedy
pass (posteriors and unk fallbacks) and the bounded history.
`cur_unk_score` starts as the `-inf` sentinel (`⊥`). -/
structure NgzState where
  scores : List (List ℝ)
  unkScores : List ℝ
  history : List ℕ
  curUnkScore : WithBot ℝ

/-- The greedy forward pass of `NgramizePredictor.initialize`
(`length.py`, lines 741-751).  The source's `while trg_word != EOS and
l <= max_len` loop runs at most `max_len + 1` iterations; `fuel` is
that remaining-iteration count.  Each iteration records the slave
posterior and its unk fallback, then feeds `UNK_ID` to the slave; the
iteration whose arg-max is EOS is recorded and ends the loop. -/
noncomputable def ngzInitLoop (P : SlavePred σ) :
    ℕ → σ → List (List ℝ × ℝ)
  | 0, _ => []
  | fuel + 1, s =>
    let pr := P.predictFn s
    let entry := (pr.1, P.unkFn pr.2 pr.1)
    if argmaxVec pr.1 = EOS_ID then [entry]
    else entry :: ngzInitLoop P fuel (P.consumeFn UNK_ID pr.2)

/-- `NgramizePredictor.initialize`: initialize the slave, run the
greedy pass, reset the history and the unk-score sentinel. -/
noncomputable def ngzInit (cfg : NgzConfig) (P : SlavePred σ) (src : List ℕ)
    (s0 : σ) : NgzState :=
  let recorded := ngzInitLoop P (cfg.maxLenFactor * src.length + 1) (P.initFn src s0)
  { scores := recorded.map (fun e => e.1),
    unkScores := recorded.map (fun e => e.2),
    history := [],
    curUnkScore := ⊥ }

/-- Inner loop of `NgramizePredictor.predict_next` for one alignment
offset `pos`: walk the history, accumulating the log-prob of producing
its tokens at consecutive recorded positions, emitting one (order,
shifted posterior, shifted unk fallback) triple per order until the
recorded sequence runs out (`length.py`, lines 769-778). -/
noncomputable def ngzInner (scores : List (List ℝ)) (unkScores : List ℝ)
    (pos : ℕ) : List ℕ → ℕ → ℝ → List (ℕ × List ℝ × ℝ)
  | [], _, _ => []
  | w :: ws, order, acc =>
    if scores.length ≤ pos + order + 1 then []
    else
      let acc' := acc + commonGet (scores.getD (pos + order) []) w
        (unkScores.getD (pos + order) 0)
      (order + 1,
       (scores.getD (pos + order + 1) []).map (fun x => acc' + x),
       acc' + unkScores.getD (pos + order + 1) 0)
        :: ngzInner scores unkScores pos ws (order + 1) acc'

/-- Bucket `this_scores[o]`, `this_unk_scores[o]` of
`NgramizePredictor.predict_next`: order 0 collects every recorded
position as-is; order `o ≥ 1` collects, per alignment offset in
ascending order, the triple that the inner walk emitted at order `o`,
if it got that far. -/
noncomputable def ngzBucket (scores : List (List ℝ)) (unkScores : List ℝ)
    (history : List ℕ) (o : ℕ) : List (List ℝ) × List ℝ :=
  if o = 0 then (scores, unkScores)
  else
    let entries := (List.range scores.length).filterMap (fun pos =>
      (ngzInner scores unkScores pos history 0 0).find? (fun e => e.1 = o))
    (entries.map (fun e => e.2.1), entries.map (fun e => e.2.2))

/-- `numpy.logsumexp(np.vstack(vs), axis=0)`: pointwise log-sum-exp of a
stack of equal-length vectors (`np.vstack` rejects ragged input; the
model reads missing entries as 0 only where Python would have raised). -/
noncomputable def vecLogSumExp (vs : List (List ℝ)) : List ℝ :=
  match vs with
  | [] => []
  | v :: _ => (List.range v.length).map (fun i =>
      logsumexp (vs.map (fun w => w.getD i 0)))

/-- Pointwise sum of two dense vectors. -/
noncomputable def vecAdd (v w : List ℝ) : List ℝ :=
  List.zipWith (fun a b => a + b) v w

/-- Python `sum` over a nonempty list of numpy arrays (the base case 0
broadcasts over the first array). -/
noncomputable def vecSum : List (List ℝ) → List ℝ
  | [] => []
  | v :: vs => vs.foldl vecAdd v

/-- The combined posterior and unk score of
`NgramizePredictor.predict_next` (`length.py`, lines 761-791): for each
order from 0 to the history length whose bucket is nonempty and which
qualifies against `min_order`, combine the bucket by log-sum-exp; the
posterior is the sum of the combined vectors (`none` models the empty
dict returned when no order qualifies) and the unk score the sum of the
combined fallbacks (0 when no order qualifies). -/
noncomputable def ngzCombine (cfg : NgzConfig) (st : NgzState) :
    Option (List ℝ) × ℝ :=
  let combined := (List.range (st.history.length + 1)).filterMap (fun o =>
    let b := ngzBucket st.scores st.unkScores st.history o
    if b.1 ≠ [] ∧ cfg.minOrder ≤ o + 1 then
      some (vecLogSumExp b.1, logsumexp b.2)
    else none)
  match combined with
  | [] => (none, 0)
  | c :: cs => (some (vecSum ((c :: cs).map (fun e => e.1))),
                ((c :: cs).map (fun e => e.2)).sum)

/-- `NgramizePredictor.predict_next`: the combined posterior, with
`cur_unk_score` overwritten on the state. -/
noncomputable def ngzPredictNext (cfg : NgzConfig) (st : NgzState) :
    Option (List ℝ) × NgzState :=
  let r := ngzCombine cfg st
  (r.1, { st with curUnkScore := ((r.2 : ℝ) : WithBot ℝ) })

/-- `NgramizePredictor.get_unk_probability`: the stored
`cur_unk_score`. -/
def ngzGetUnkProbability (st : NgzState) : WithBot ℝ := st.curUnkScore

/-- `NgramizePredictor.consume`: append to the bounded history when the
bound is positive. -/
def ngzConsume (cfg : NgzConfig) (w : ℕ) (st : NgzState) : NgzState :=
  if 0 < cfg.maxHistoryLength then
    { st with history := pyTailSlice cfg.maxHistoryLength (st.history ++ [w]) }
  else st

/-- `NgramizePredictor.get_state`. -/
def ngzGetState (st : NgzState) : List ℕ × WithBot ℝ :=
  (st.history, st.curUnkScore)

/-- `NgramizePredictor.set_state`. -/
def ngzSetState (s : List ℕ × WithBot ℝ) (st : NgzState) : NgzState :=
  { st with history := s.1, curUnkScore := s.2 }

/-- `NgramizePredictor.is_equal`: tuple equality on the snapshots
(real-valued component, hence a proposition). -/
def ngzIsEqual (s1 s2 : List ℕ × WithBot ℝ) : Prop := s1 = s2

/-! ## Claim C4 -/

/-- C4: a `model_weights` list whose length is neither 10 nor 12 was
claimed to make construction fail before any sentence is decoded.  The
code only emits a `logging.fatal` message (which logs and returns) and
then builds the weight slices anyway: for the length-2 input `[1, 1]`
the fatal message is logged, yet construction succeeds and yields
`r_weights = [1, 1, 1]`, `p_weights = [1]`, which go on to score
sentences.  (Lengths 0 and 1 do fail, but only via `IndexError` on
`w[-2]`.)  The length-10 bias append and length-12 pass-through behave
as claimed. -/
theorem claim_C4_code_eval :
    nbFatalLogged [1, 1] = true ∧
    nbMakeWeights [1, 1] = some ([1, 1, 1], [1]) ∧
    nbMakeWeights [] = none ∧
    nbMakeWeights [7] = none ∧
    nbSetupWeights [1, 2, 3, 4, 5, 6, 7, 8, 9, 10] =
      [1, 2, 3, 4, 5, 6, 7, 8, 9, 10, 0, 0] ∧
    nbMakeWeights [1, 2, 3, 4, 5, 6, 7, 8, 9, 10, 11, 12] =
      some ([1, 2, 3, 4, 5, 11], [6, 7, 8, 9, 10, 12]) ∧
    nbFatalLogged [1, 2, 3, 4, 5, 6, 7, 8, 9, 10] = false := by
  decide

/-! ## Claim C5 -/

/-- `initialize` followed by a sequence of `consume` calls. -/
def ngcConsumeSeq (cfg : NgcConfig) (ws : List ℕ) (st : NgcState) : NgcState :=
  ws.foldl (fun s w => ngcConsume cfg w s) st

/-- With a positive history bound, one `consume` always leaves the
history within the bound, whatever the incoming length. -/
theorem ngcConsume_length_le (cfg : NgcConfig) (w : ℕ) (st : NgcState)
    (h : 1 ≤ cfg.maxHistoryLen) :
    (ngcConsume cfg w st).curHistory.length ≤ cfg.maxHistoryLen := by
  simp only [ngcConsume]
  by_cases hl : cfg.maxHistoryLen < (st.curHistory ++ [w]).length
  · rw [if_pos hl]
    unfold pyTailSlice
    rw [if_neg (by omega : ¬ cfg.maxHistoryLen = 0)]
    simp only [List.length_drop]
    omega
  · rw [if_neg hl]
    omega

/-- The history after one `consume` is a suffix of the old history with
the new token appended. -/
theorem ngcConsume_suffix (cfg : NgcConfig) (w : ℕ) (st : NgcState) :
    (ngcConsume cfg w st).curHistory <:+ st.curHistory ++ [w] := by
  simp only [ngcConsume]
  by_cases hl : cfg.maxHistoryLen < (st.curHistory ++ [w]).length
  · rw [if_pos hl]
    unfold pyTailSlice
    by_cases hm : cfg.maxHistoryLen = 0
    · rw [if_pos hm]
    · rw [if_neg hm]
      exact (st.curHistory ++ [w]).drop_suffix _
  · rw [if_neg hl]

/-- C5 (amended): for every loaded n-gram file whose
`max_history_len` is at least 1, every consume sequence keeps the
stored history within `max_history_len`, and each consume produces a
suffix of the old history extended by the consumed token.  (For
`max_history_len = 0` the bound fails, see the counterexample: the
Python slice `[-0:]` keeps the whole list.) -/
theorem claim_C5_amended :
    (∀ (order : ℕ) (fileLines : List (List ℕ × ℚ)) (res : NgcLoadResult)
       (df : ℚ) (ws : List ℕ),
      ngcLoad order fileLines = some res →
      1 ≤ res.maxHistoryLen →
      (ngcConsumeSeq
        { order := order, discountFactor := df,
          maxHistoryLen := res.maxHistoryLen, ngrams := res.ngrams }
        ws ngcInit).curHistory.length ≤ res.maxHistoryLen) ∧
    (∀ (cfg : NgcConfig) (w : ℕ) (st : NgcState),
      (ngcConsume cfg w st).curHistory <:+ st.curHistory ++ [w]) := by
  constructor
  · intro order fileLines res df ws _hload hlen
    set cfg : NgcConfig :=
      { order := order, discountFactor := df,
        maxHistoryLen := res.maxHistoryLen, ngrams := res.ngrams } with hcfg
    have hbound : ∀ (l : List ℕ) (st : NgcState),
        st.curHistory.length ≤ cfg.maxHistoryLen →
        (ngcConsumeSeq cfg l st).curHistory.length ≤ cfg.maxHistoryLen := by
      intro l
      induction l with
      | nil => intro st hst; exact hst
      | cons w ws ih =>
        intro st _hst
        exact ih _ (ngcConsume_length_le cfg w st hlen)
    exact hbound ws ngcInit (by simpa [ngcInit] using hlen)
  · exact ngcConsume_suffix

/-- C5 counterexample: loading an empty n-gram file yields
`max_history_len = 0`, yet after `initialize` (history `[GO_ID]`) a
single consume leaves a history of length 2 — the Python slice
`history[-0:]` is the whole list, so nothing is ever truncated. -/
theorem claim_C5_counterexample :
    ngcLoad 0 [] = some { maxHistoryLen := 0, ngrams := Trie.empty } ∧
    ¬ ((ngcConsume
        { order := 0, discountFactor := -1, maxHistoryLen := 0,
          ngrams := Trie.empty }
        5 ngcInit).curHistory.length ≤ 0) := by
  constructor
  · rfl
  · decide

/-- C5 witness: a file with the single 2-gram line "1 7 : 1/2" has
`max_history_len = 1`; consuming three tokens keeps the history at
length 1. -/
theorem claim_C5_witness :
    (ngcConsumeSeq
      { order := 0, discountFactor := -1, maxHistoryLen := 1,
        ngrams := [([1], [(7, 1/2)])] }
      [5, 6, 7] ngcInit).curHistory.length ≤ 1 :=
  claim_C5_amended.1 0 [([1, 7], 1/2)]
    { maxHistoryLen := 1, ngrams := [([1], [(7, 1/2)])] }
    (-1) [5, 6, 7] rfl (by decide)

/-! ## Claim C1 -/

/-- C1 (amended): `is_equal(s, s)` is true for every state of every
core predictor kind — except that `NgramCountPredictor` with
discounting enabled (`discount_factor ≥ 0`) returns false on every
state pair, including identical states (see the counterexample); with
`discount_factor < 0` its reflexivity holds.  The decorator
`WeightNonTerminalPredictor` is reflexive whenever its slave is. -/
theorem claim_C1_amended :
    (∀ s : ℕ × List ℝ, nbIsEqual s s = true) ∧
    (∀ s1 s2 : Bool, wcIsEqual s1 s2 = true) ∧
    (∀ (τ : Type) (slaveIsEqual : τ → τ → Bool),
      (∀ s, slaveIsEqual s s = true) →
      ∀ s, wntIsEqual slaveIsEqual s s = true) ∧
    (∀ s : ℕ, extIsEqual s s = true) ∧
    (∀ cfg : NgcConfig, cfg.discountFactor < 0 →
      ∀ s, ngcIsEqual cfg s s = true) ∧
    (∀ s : ℕ × ℕ × ℝ × ℝ, unkIsEqual s s) ∧
    (∀ s : List ℕ × WithBot ℝ, ngzIsEqual s s) := by
  refine ⟨?_, ?_, ?_, ?_, ?_, ?_, ?_⟩
  · intro s; simp [nbIsEqual]
  · intro s1 s2; rfl
  · intro τ slaveIsEqual h s; exact h s
  · intro s; simp [extIsEqual]
  · intro cfg hdf s
    unfold ngcIsEqual
    rw [if_neg (by exact not_le.mpr hdf)]
    rw [if_pos rfl]
  · intro s; rfl
  · intro s; rfl

/-- C1 counterexample: with `discount_factor = 0` (a non-negative
discount, explicitly included in the claim), `is_equal` applied twice
to the state snapshot taken right after `initialize` — a reachable
state — returns false. -/
theorem claim_C1_counterexample :
    ngcIsEqual
      { order := 0, discountFactor := 0, maxHistoryLen := 0,
        ngrams := Trie.empty }
      (ngcGetState ngcInit) (ngcGetState ngcInit) = false := by
  decide

/-- C1 witness: the amended reflexivity at concrete states, including a
discount-free `NgramCountPredictor` and a `WeightNonTerminalPredictor`
wrapping a `WordCountPredictor`. -/
theorem claim_C1_witness :
    ngcIsEqual
      { order := 0, discountFactor := -1, maxHistoryLen := 0,
        ngrams := Trie.empty }
      (ngcGetState ngcInit) (ngcGetState ngcInit) = true ∧
    wntIsEqual wcIsEqual true true = true := by
  constructor
  · exact claim_C1_amended.2.2.2.2.1 _ (by norm_num) _
  · exact claim_C1_amended.2.2.1 Bool wcIsEqual (fun s => rfl) true

/-! ## Claim C6 -/

/-- The greedy pass records at most `fuel` entries. -/
theorem ngzInitLoop_length_le (P : SlavePred σ) :
    ∀ (fuel : ℕ) (s : σ), (ngzInitLoop P fuel s).length ≤ fuel := by
  intro fuel
  induction fuel with
  | zero => intro s; simp [ngzInitLoop]
  | succ n ih =>
    intro s
    unfold ngzInitLoop
    by_cases h : argmaxVec (P.predictFn s).1 = EOS_ID
    · rw [if_pos h]; simp
    · rw [if_neg h]
      simpa using Nat.succ_le_succ (ih _)

/-- Every recorded posterior except possibly the last has a non-EOS
arg-max: the pass stops at the first EOS arg-max. -/
theorem ngzInitLoop_no_eos (P : SlavePred σ) :
    ∀ (fuel : ℕ) (s : σ) (i : ℕ),
      i + 1 < (ngzInitLoop P fuel s).length →
      argmaxVec (((ngzInitLoop P fuel s).map (fun e => e.1)).getD i []) ≠ EOS_ID := by
  intro fuel
  induction fuel with
  | zero => intro s i h; simp [ngzInitLoop] at h
  | succ n ih =>
    intro s i h
    unfold ngzInitLoop at h ⊢
    by_cases heos : argmaxVec (P.predictFn s).1 = EOS_ID
    · rw [if_pos heos] at h
      simp at h
    · rw [if_neg heos] at h ⊢
      match i with
      | 0 => simpa using heos
      | i + 1 =>
        simp only [List.map_cons, List.getD_cons_succ]
        exact ih _ i (by simpa using h)

/-- C6 (amended): the greedy pass of `NgramizePredictor.initialize`
stops at the first position whose arg-max is EOS or after
`max_len_factor × len(src) + 1` steps — one more than claimed, because
the source loop condition is `l <= max_len`, not `<` — so the recorded
list has at most `max_len_factor × len(src) + 1` entries (posterior and
unk-fallback lists of equal length), and only its last entry can carry
an EOS arg-max. -/
theorem claim_C6_amended :
    ∀ (σ : Type) (P : SlavePred σ) (cfg : NgzConfig) (src : List ℕ) (s0 : σ),
      ((ngzInit cfg P src s0).scores.length ≤
        cfg.maxLenFactor * src.length + 1) ∧
      ((ngzInit cfg P src s0).unkScores.length =
        (ngzInit cfg P src s0).scores.length) ∧
      (∀ i : ℕ, i + 1 < (ngzInit cfg P src s0).scores.length →
        argmaxVec ((ngzInit cfg P src s0).scores.getD i []) ≠ EOS_ID) := by
  intro σ P cfg src s0
  refine ⟨?_, ?_, ?_⟩
  · simpa [ngzInit] using ngzInitLoop_length_le P (cfg.maxLenFactor * src.length + 1) _
  · simp [ngzInit]
  · intro i h
    have h' : i + 1 <
        (ngzInitLoop P (cfg.maxLenFactor * src.length + 1) (P.initFn src s0)).length := by
      simpa [ngzInit] using h
    have := ngzInitLoop_no_eos P (cfg.maxLenFactor * src.length + 1) (P.initFn src s0) i h'
    simpa [ngzInit] using this

/-- A concrete memoryless slave whose posterior is the single-entry
vector `[1]` (arg-max index 0, never EOS). -/
noncomputable def slvConst : SlavePred Unit :=
  { initFn := fun _ _ => (),
    predictFn := fun _ => ([(1 : ℝ)], ()),
    unkFn := fun _ _ => 0,
    consumeFn := fun _ _ => () }

/-- C6 counterexample: with `max_len_factor = 1` and an empty source
sentence the claimed bound is `1 × 0 = 0` recorded entries, but the
greedy pass records one entry (the loop body runs for `l = 0` since the
condition is `l <= max_len`). -/
theorem claim_C6_counterexample :
    ¬ ((ngzInit
        { minOrder := 1, maxHistoryLength := 1, maxLenFactor := 1 }
        slvConst [] ()).scores.length ≤
          1 * ([] : List ℕ).length) := by
  have hlen : (ngzInit
      { minOrder := 1, maxHistoryLength := 1, maxLenFactor := 1 }
      slvConst [] ()).scores.length = 1 := by
    simp [ngzInit, ngzInitLoop, slvConst, argmaxVec, argmaxAux, EOS_ID]
  rw [hlen]
  decide

/-- C6 witness: the amended bound and the non-EOS property of all
non-final recorded entries, instantiated on a two-step run of the
constant slave (`max_len_factor = 1`, source length 1). -/
theorem claim_C6_witness :
    ((ngzInit { minOrder := 1, maxHistoryLength := 1, maxLenFactor := 1 }
        slvConst [9] ()).scores.length ≤ 1 * [9].length + 1) ∧
    (argmaxVec ((ngzInit { minOrder := 1, maxHistoryLength := 1, maxLenFactor := 1 }
        slvConst [9] ()).scores.getD 0 []) ≠ EOS_ID) := by
  have h := claim_C6_amended Unit slvConst
    { minOrder := 1, maxHistoryLength := 1, maxLenFactor := 1 } [9] ()
  refine ⟨h.1, h.2.2 0 ?_⟩
  have hlen : (ngzInit
      { minOrder := 1, maxHistoryLength := 1, maxLenFactor := 1 }
      slvConst [9] ()).scores.length = 2 := by
    simp [ngzInit, ngzInitLoop, slvConst, argmaxVec, argmaxAux, EOS_ID]
  rw [hlen]
  decide

/-! ## Claim C8 -/

/-- C8: `ExternalLengthPredictor` scores EOS with the tabulated score of
the current consumed count when present and `-inf` otherwise, and its
unk fallback is 0 strictly below the largest tabulated length and
`-inf` from there on; on the line "3:-1.0 5:-2.0" this gives
`{EOS: -1}` after 3 consumed tokens, `{EOS: -inf}` after 4, and an
`-inf` fallback once consumed reaches 5. -/
theorem claim_C8_eos_scores :
    (∀ (st : ExtState) (q : ℚ),
      dictGet st.curScores st.nConsumed = some q →
      (extPredictNext st).1 = [(EOS_ID, (q : WithBot ℚ))]) ∧
    (∀ st : ExtState,
      dictGet st.curScores st.nConsumed = none →
      (extPredictNext st).1 = [(EOS_ID, (⊥ : WithBot ℚ))]) ∧
    (∀ st : ExtState, st.nConsumed < st.maxLength →
      extGetUnkProbability st = 0) ∧
    (∀ st : ExtState, st.maxLength ≤ st.nConsumed →
      extGetUnkProbability st = ⊥) ∧
    (extInit [(3, some (-1)), (5, some (-2))] =
      some { curScores := [(3, -1), (5, -2)], maxLength := 5, nConsumed := 0 }) ∧
    ((extPredictNext (extConsume^[3]
        { curScores := [(3, -1), (5, -2)], maxLength := 5, nConsumed := 0 })).1 =
      [(EOS_ID, ((-1 : ℚ) : WithBot ℚ))]) ∧
    ((extPredictNext (extConsume^[4]
        { curScores := [(3, -1), (5, -2)], maxLength := 5, nConsumed := 0 })).1 =
      [(EOS_ID, (⊥ : WithBot ℚ))]) ∧
    (extGetUnkProbability (extConsume^[5]
        { curScores := [(3, -1), (5, -2)], maxLength := 5, nConsumed := 0 }) = ⊥) ∧
    (extGetUnkProbability (extConsume^[4]
        { curScores := [(3, -1), (5, -2)], maxLength := 5, nConsumed := 0 }) = 0) := by
  refine ⟨?_, ?_, ?_, ?_, ?_, ?_, ?_, ?_, ?_⟩
  · intro st q h; simp [extPredictNext, h]
  · intro st h; simp [extPredictNext, h]
  · intro st h; simp [extGetUnkProbability, h]
  · intro st h; unfold extGetUnkProbability; rw [if_neg (not_lt.mpr h)]
  · rfl
  · decide
  · decide
  · decide
  · decide

/-- C8 witness: the tabulated-length case of the general statement at
the concrete reachable state with 3 consumed tokens. -/
theorem claim_C8_witness :
    (extPredictNext
      { curScores := [(3, -1), (5, -2)], maxLength := 5, nConsumed := 3 }).1 =
    [(EOS_ID, ((-1 : ℚ) : WithBot ℚ))] :=
  claim_C8_eos_scores.1
    { curScores := [(3, -1), (5, -2)], maxLength := 5, nConsumed := 3 }
    (-1) (by decide)

/-! ## Claim C9 -/

/-- C9: for every predictor kind, writing back the snapshot returned by
`get_state` through `set_state` — onto the same instance or onto any
instance agreeing on the configuration-determined fields — reproduces
the original `predict_next` output.  For the decorator the property is
inherited from the slave. -/
theorem claim_C9_roundtrip :
    (∀ s1 s2 : NBState,
      s2.usePointProbs = s1.usePointProbs → s2.offset = s1.offset →
      s2.curR = s1.curR → s2.curP = s1.curP → s2.maxEosProb = s1.maxEosProb →
      (nbPredictNext (nbSetState (nbGetState s1) s2)).1 = (nbPredictNext s1).1) ∧
    (∀ cfg : WCConfig,
      wcPredictNext (wcSetState (wcGetState cfg) cfg) = wcPredictNext cfg) ∧
    (∀ (σ τ α : Type) (instM : Mul α) (slavePredict : σ → List (ℕ × α) × σ)
       (slaveGet : σ → τ) (slaveSet : τ → σ → σ) (mult : List (ℕ × α)),
      (∀ s, (slavePredict (slaveSet (slaveGet s) s)).1 = (slavePredict s).1) →
      ∀ s, (@wntPredictNext α σ instM slavePredict mult
              (wntSetState slaveSet (wntGetState slaveGet s) s)).1 =
           (@wntPredictNext α σ instM slavePredict mult s).1) ∧
    (∀ s1 s2 : ExtState,
      s2.curScores = s1.curScores → s2.maxLength = s1.maxLength →
      (extPredictNext (extSetState (extGetState s1) s2)).1 =
        (extPredictNext s1).1) ∧
    (∀ (cfg : NgcConfig) (s1 s2 : NgcState),
      (ngcPredictNext cfg (ngcSetState (ngcGetState s1) s2)).1 =
        (ngcPredictNext cfg s1).1) ∧
    (∀ s1 s2 : UnkState,
      s2.l = s1.l → s2.maxProbIdx = s1.maxProbIdx → s2.maxProb = s1.maxProb →
      (unkPredictNext (unkSetState (unkGetState s1) s2)).1 =
        (unkPredictNext s1).1) ∧
    (∀ (cfg : NgzConfig) (s1 s2 : NgzState),
      s2.scores = s1.scores → s2.unkScores = s1.unkScores →
      (ngzPredictNext cfg (ngzSetState (ngzGetState s1) s2)).1 =
        (ngzPredictNext cfg s1).1) := by
  refine ⟨?_, ?_, ?_, ?_, ?_, ?_, ?_⟩
  · intro s1 s2 h1 h2 h3 h4 h5
    have hs : nbSetState (nbGetState s1) s2 = s1 := by
      cases s1; cases s2; simp_all [nbSetState, nbGetState]
    rw [hs]
  · intro cfg; rfl
  · intro σ τ α instM slavePredict slaveGet slaveSet mult h s
    unfold wntPredictNext wntSetState wntGetState
    exact congrArg (wntApplyMult mult) (h s)
  · intro s1 s2 h1 h2
    have hs : extSetState (extGetState s1) s2 = s1 := by
      cases s1; cases s2; simp_all [extSetState, extGetState]
    rw [hs]
  · intro cfg s1 s2
    have hs : ngcSetState (ngcGetState s1) s2 = s1 := by
      cases s1; rfl
    rw [hs]
  · intro s1 s2 h1 h2 h3
    have hs : unkSetState (unkGetState s1) s2 = s1 := by
      cases s1; cases s2; simp_all [unkSetState, unkGetState]
    rw [hs]
  · intro cfg s1 s2 h1 h2
    have hs : ngzSetState (ngzGetState s1) s2 = s1 := by
      cases s1; cases s2; simp_all [ngzSetState, ngzGetState]
    rw [hs]

/-- C9 witness: the round-trip at a concrete
`ExternalLengthPredictor` state, on a fresh identically-configured
instance (the two states share the configuration fields and the
snapshot overwrites the rest). -/
theorem claim_C9_witness :
    (extPredictNext (extSetState
      (extGetState { curScores := [(3, -1)], maxLength := 3, nConsumed := 2 })
      { curScores := [(3, -1)], maxLength := 3, nConsumed := 0 })).1 =
    (extPredictNext
      { curScores := [(3, -1)], maxLength := 3, nConsumed := 2 }).1 :=
  claim_C9_roundtrip.2.2.2.1
    { curScores := [(3, -1)], maxLength := 3, nConsumed := 2 }
    { curScores := [(3, -1)], maxLength := 3, nConsumed := 0 }
    rfl rfl

/-! ## Claim C2 -/

/-- In proper-probability mode with a nonzero consumed count,
`predict_next` appends the current point estimate to
`prev_eos_probs` — a state mutation. -/
theorem nbPredict_proper_effect (st : NBState)
    (h1 : st.usePointProbs = false) (h2 : st.nConsumed ≠ 0) :
    (nbPredictNext st).2 =
      { st with prevEosProbs := st.prevEosProbs ++
          [nbGetEosPointProb st.curR st.curP
            (max 1 ((st.nConsumed : ℤ) - st.offset))] } := by
  unfold nbPredictNext nbGetEosProb
  rw [if_neg h2]
  rcases hp : st.prevEosProbs with _ | ⟨a, l⟩ <;> simp [h1, hp]

/-- C2 (amended): `predict_next` is a deterministic function of the
state, and for `WordCountPredictor`, `ExternalLengthPredictor`,
`NgramCountPredictor`, `UnkCountPredictor` — and `NBLengthPredictor`
in point mode or at zero consumed tokens — it has no side effect, so
two consecutive calls return equal posteriors and leave
`get_unk_probability` unchanged.  But `NBLengthPredictor` in
proper-probability mode appends the point estimate to
`prev_eos_probs`, and `NgramizePredictor` overwrites `cur_unk_score`,
so for those two kinds `predict_next` does mutate the state observable
through `get_state` (see the counterexample). -/
theorem claim_C2_purity :
    (∀ cfg : WCConfig, wcPredictNext cfg = cfg.posterior) ∧
    (∀ st : ExtState, (extPredictNext st).2 = st ∧
      (extPredictNext (extPredictNext st).2).1 = (extPredictNext st).1 ∧
      extGetUnkProbability (extPredictNext st).2 = extGetUnkProbability st) ∧
    (∀ (cfg : NgcConfig) (st : NgcState), (ngcPredictNext cfg st).2 = st ∧
      (ngcPredictNext cfg (ngcPredictNext cfg st).2).1 =
        (ngcPredictNext cfg st).1) ∧
    (∀ st : UnkState, (unkPredictNext st).2 = st ∧
      (unkPredictNext (unkPredictNext st).2).1 = (unkPredictNext st).1 ∧
      unkGetUnkProbability (unkPredictNext st).2 = unkGetUnkProbability st) ∧
    (∀ st : NBState, st.usePointProbs = true → (nbPredictNext st).2 = st) ∧
    (∀ st : NBState, st.nConsumed = 0 → (nbPredictNext st).2 = st) ∧
    (∀ st : NBState, st.usePointProbs = false → st.nConsumed ≠ 0 →
      (nbPredictNext st).2 =
        { st with prevEosProbs := st.prevEosProbs ++
            [nbGetEosPointProb st.curR st.curP
              (max 1 ((st.nConsumed : ℤ) - st.offset))] }) ∧
    (∀ (cfg : NgzConfig) (st : NgzState),
      (ngzPredictNext cfg st).2 =
        { st with curUnkScore := (((ngzCombine cfg st).2 : ℝ) : WithBot ℝ) } ∧
      (ngzPredictNext cfg st).2.history = st.history) := by
  refine ⟨?_, ?_, ?_, ?_, ?_, ?_, ?_, ?_⟩
  · intro cfg; rfl
  · intro st; exact ⟨rfl, rfl, rfl⟩
  · intro cfg st; exact ⟨rfl, rfl⟩
  · intro st; exact ⟨rfl, rfl, rfl⟩
  · intro st h
    unfold nbPredictNext nbGetEosProb
    by_cases h0 : st.nConsumed = 0
    · rw [if_pos h0]
    · rw [if_neg h0]; simp [h]
  · intro st h0
    unfold nbPredictNext
    rw [if_pos h0]
  · exact nbPredict_proper_effect
  · intro cfg st; exact ⟨rfl, rfl⟩

/-- A concrete `NBLengthPredictor` configuration in proper-probability
mode: all-zero weights over the one-line source text file "a". -/
noncomputable def nbCExCfg : NBConfig :=
  { usePointProbs := false, offset := 0,
    rWeights := [0, 0, 0, 0, 0, 0], pWeights := [0, 0, 0, 0, 0, 0],
    srcFeatures := [[1, 1, 0, 1, 0]] }

/-- The reachable state obtained from `nbCExCfg` by `initialize`
followed by one `consume`. -/
noncomputable def nbCExState : NBState := nbConsume (nbInit nbCExCfg 0)

/-- C2 counterexample: on the reachable proper-mode state with one
consumed token, `predict_next` changes the snapshot returned by
`get_state` (the `prev_eos_probs` accumulator grows from `[]` to a
one-element list).  The accompanying equations certify reachability:
the configuration is what `__init__` builds from the text file "a" and
the all-zero length-12 weight vector. -/
theorem claim_C2_counterexample :
    nbGetState ((nbPredictNext nbCExState).2) ≠ nbGetState nbCExState ∧
    nbConstruct [['a']] [0, 0, 0, 0, 0, 0, 0, 0, 0, 0, 0, 0] false 0 =
      some nbCExCfg ∧
    nbCExState = nbConsume (nbInit nbCExCfg 0) := by
  refine ⟨?_, ?_, rfl⟩
  · have h1 : nbCExState.usePointProbs = false := rfl
    have h2 : nbCExState.nConsumed ≠ 0 := by
      have : nbCExState.nConsumed = 1 := rfl
      omega
    rw [nbPredict_proper_effect nbCExState h1 h2]
    have hprev : nbCExState.prevEosProbs = [] := rfl
    simp [nbGetState, hprev]
  · have hw : nbMakeWeights [0, 0, 0, 0, 0, 0, 0, 0, 0, 0, 0, 0] =
        some ([0, 0, 0, 0, 0, 0], [0, 0, 0, 0, 0, 0]) := by decide
    have hf : nbExtractFeatures [['a']] = some [[1, 1, 0, 1, 0]] := by
      have h1 : pyStrip ['a'] = ['a'] := by decide
      have h2 : splitWs ['a'] = [['a']] := by decide
      unfold nbExtractFeatures nbAnalyseSentence
      simp only [h1, h2]
      simp [List.count_cons, List.count_nil, nbExtractFeatures]
    unfold nbConstruct
    rw [hw, hf]
    simp [nbCExCfg]

/-- C2 witness: the no-side-effect statement applied at a concrete
point-mode state. -/
theorem claim_C2_witness :
    (nbPredictNext
      { usePointProbs := true, offset := 0, curR := 1, curP := 1 / 2,
        maxEosProb := 0, nConsumed := 3, prevEosProbs := [] }).2 =
    { usePointProbs := true, offset := 0, curR := 1, curP := 1 / 2,
      maxEosProb := 0, nConsumed := 3, prevEosProbs := [] } :=
  claim_C2_purity.2.2.2.2.1
    { usePointProbs := true, offset := 0, curR := 1, curP := 1 / 2,
      maxEosProb := 0, nConsumed := 3, prevEosProbs := [] } rfl

/-! ## Claim C3 -/

/-- Closed form of the Poisson point log-pmf at n = 1. -/
theorem getPoissonProb_one (l : ℝ) : getPoissonProb l 1 = Real.log l - l := by
  unfold getPoissonProb
  simp [List.range_succ]

/-- Closed form of the Poisson point log-pmf at λ = 3, n = 3. -/
theorem getPoissonProb_three_three :
    getPoissonProb 3 3 = 3 * Real.log 3 - 3 - (Real.log 2 + Real.log 3) := by
  unfold getPoissonProb
  have h : ((3 : ℤ)).toNat = 3 := rfl
  rw [h]
  simp [List.range_succ]
  norm_num

/-- Closed form of the Poisson point log-pmf at λ = 3, n = 4. -/
theorem getPoissonProb_three_four :
    getPoissonProb 3 4 =
      4 * Real.log 3 - 3 - (Real.log 2 + Real.log 3 + Real.log 4) := by
  unfold getPoissonProb
  have h : ((4 : ℤ)).toNat = 4 := rfl
  rw [h]
  simp [List.range_succ]
  norm_num
  ring

/-- For λ = 3 the pmf at 4 does not exceed the pmf at 3, so the mode
scan keeps index 3. -/
theorem getPoissonProb_three_not_lt :
    ¬ (getPoissonProb 3 3 < getPoissonProb 3 4) := by
  rw [getPoissonProb_three_three, getPoissonProb_three_four]
  have h34 : Real.log 3 < Real.log 4 :=
    Real.log_lt_log (by norm_num) (by norm_num)
  intro h
  linarith

/-- The pmf at 1 is strictly below the pmf at the mode 3 for λ = 3. -/
theorem getPoissonProb_three_one_lt :
    getPoissonProb 3 1 < getPoissonProb 3 3 := by
  rw [getPoissonProb_one, getPoissonProb_three_three]
  have h23 : Real.log 2 < Real.log 3 :=
    Real.log_lt_log (by norm_num) (by norm_num)
  linarith

/-- `initialize` of the one-bucket configuration λ = 3 on an empty
source sentence, fully evaluated. -/
theorem unkInit_lambda3 :
    unkInit { lambdas := [3], srcVocabSize := 100 } [] =
      { l := 3, nConsumed := 0, nUnk := 0, unkProb := getPoissonProb 3 1,
        maxProbIdx := 3, maxProb := getPoissonProb 3 3,
        consumedProb := getPoissonProb 3 3 } := by
  have hlam : unkLambda { lambdas := [3], srcVocabSize := 100 } [] = 3 := rfl
  have hpy : pyInt 3 = 3 := by
    unfold pyInt
    rw [if_pos (by norm_num : (0 : ℝ) ≤ 3)]
    norm_num
  have hstep : unkInit { lambdas := [3], srcVocabSize := 100 } [] =
      if getPoissonProb 3 (pyInt 3) < getPoissonProb 3 (pyInt 3 + 1) then
        { l := 3, nConsumed := 0, nUnk := 0, unkProb := getPoissonProb 3 1,
          maxProbIdx := pyInt 3 + 1,
          maxProb := getPoissonProb 3 (pyInt 3 + 1),
          consumedProb := getPoissonProb 3 (pyInt 3 + 1) }
      else
        { l := 3, nConsumed := 0, nUnk := 0, unkProb := getPoissonProb 3 1,
          maxProbIdx := pyInt 3, maxProb := getPoissonProb 3 (pyInt 3),
          consumedProb := getPoissonProb 3 (pyInt 3) } := rfl
  rw [hstep, hpy]
  norm_num
  exact not_lt.mp getPoissonProb_three_not_lt

/-- C3 counterexample: for the reachable configuration λ = 3 (mode
index 3), `predict_next` at zero consumed tokens returns EOS scored at
`logpois(1)`, which differs from the mode's log-probability
`logpois(3)` — the claimed return value. -/
theorem claim_C3_counterexample :
    (unkInit { lambdas := [3], srcVocabSize := 100 } []).maxProbIdx = 3 ∧
    (unkInit { lambdas := [3], srcVocabSize := 100 } []).maxProb =
      getPoissonProb 3 3 ∧
    (unkPredictNext (unkInit { lambdas := [3], srcVocabSize := 100 } [])).1 ≠
      [(EOS_ID, (unkInit { lambdas := [3], srcVocabSize := 100 } []).maxProb)] := by
  rw [unkInit_lambda3]
  refine ⟨rfl, rfl, ?_⟩
  have hne : getPoissonProb 3 1 ≠ getPoissonProb 3 3 :=
    ne_of_lt getPoissonProb_three_one_lt
  simp [unkPredictNext, hne]

/-- C3 (amended): at zero consumed tokens `predict_next` returns the
EOS id scored at `logpois(1)` — the one-unknown point log-prob held in
`unk_prob` — not at the mode's log-prob (see the counterexample);
while the running unknown count is below the mode index m,
`predict_next` scores EOS at `unk_prob − logpois(m)`, relative to the
mode value; the mode index m is determined at `initialize` by
comparing `logpois(int(λ))` with `logpois(int(λ)+1)`, and `int`
coincides with `floor` for the non-negative rates. -/
theorem claim_C3_amended :
    (∀ (cfg : UnkConfig) (src : List ℕ),
      (unkInit cfg src).nConsumed = 0 ∧
      (unkInit cfg src).l = unkLambda cfg src ∧
      (unkInit cfg src).unkProb = getPoissonProb (unkLambda cfg src) 1 ∧
      (unkPredictNext (unkInit cfg src)).1 =
        [(EOS_ID, getPoissonProb (unkLambda cfg src) 1)]) ∧
    (∀ st : UnkState, st.nConsumed ≠ 0 → (st.nUnk : ℤ) < st.maxProbIdx →
      (unkPredictNext st).1 = [(EOS_ID, st.unkProb - st.maxProb)]) ∧
    (∀ (cfg : UnkConfig) (src : List ℕ),
      (getPoissonProb (unkLambda cfg src) (pyInt (unkLambda cfg src)) <
         getPoissonProb (unkLambda cfg src) (pyInt (unkLambda cfg src) + 1) →
        (unkInit cfg src).maxProbIdx = pyInt (unkLambda cfg src) + 1 ∧
        (unkInit cfg src).maxProb =
          getPoissonProb (unkLambda cfg src) (pyInt (unkLambda cfg src) + 1)) ∧
      (¬ (getPoissonProb (unkLambda cfg src) (pyInt (unkLambda cfg src)) <
            getPoissonProb (unkLambda cfg src) (pyInt (unkLambda cfg src) + 1)) →
        (unkInit cfg src).maxProbIdx = pyInt (unkLambda cfg src) ∧
        (unkInit cfg src).maxProb =
          getPoissonProb (unkLambda cfg src) (pyInt (unkLambda cfg src)))) ∧
    (∀ x : ℝ, 0 ≤ x → pyInt x = ⌊x⌋) := by
  refine ⟨?_, ?_, ?_, ?_⟩
  · intro cfg src
    unfold unkInit
    by_cases h : getPoissonProb (unkLambda cfg src) (pyInt (unkLambda cfg src)) <
        getPoissonProb (unkLambda cfg src) (pyInt (unkLambda cfg src) + 1)
    · rw [if_pos h]
      exact ⟨rfl, rfl, rfl, by simp [unkPredictNext]⟩
    · rw [if_neg h]
      exact ⟨rfl, rfl, rfl, by simp [unkPredictNext]⟩
  · intro st h0 hlt
    unfold unkPredictNext
    rw [if_neg h0, if_pos hlt]
  · intro cfg src
    unfold unkInit
    constructor
    · intro h
      rw [if_pos h]
      exact ⟨rfl, rfl⟩
    · intro h
      rw [if_neg h]
      exact ⟨rfl, rfl⟩
  · intro x hx
    unfold pyInt
    rw [if_pos hx]

/-- C3 witness: the below-mode branch of the amended claim at a
concrete state with one consumed token and no unknowns yet. -/
theorem claim_C3_witness :
    (unkPredictNext
      { l := 3, nConsumed := 1, nUnk := 0, unkProb := 0, maxProbIdx := 3,
        maxProb := 1, consumedProb := 1 }).1 =
    [(EOS_ID, (0 : ℝ) - 1)] :=
  claim_C3_amended.2.1
    { l := 3, nConsumed := 1, nUnk := 0, unkProb := 0, maxProbIdx := 3,
      maxProb := 1, consumedProb := 1 }
    (by decide) (by decide)

/-! ## Claim C7 -/

/-- C7: the negative-binomial point log-pmf used for the EOS score is
`lgamma(n+r) − lgamma(n+1) − lgamma(r) + n·ln(p) + r·ln(1−p)`,
always evaluated at `n = max(1, consumed − offset)`; this is what both
point and proper mode subtract their normalizers from; with r = 2,
p = 1/2, offset = 0 and 3 consumed tokens the value is
`lgamma(5) − lgamma(4) − lgamma(2) + 3·ln(1/2) + 2·ln(1/2)`. -/
theorem claim_C7_pointpmf :
    (∀ (r p : ℝ) (n : ℤ),
      nbGetEosPointProb r p n =
        lgamma ((n : ℝ) + r) - lgamma ((n : ℝ) + 1) - lgamma r +
          (n : ℝ) * Real.log p + r * Real.log (1 - p)) ∧
    (∀ st : NBState, st.usePointProbs = true → st.nConsumed ≠ 0 →
      (nbPredictNext st).1 =
        [(EOS_ID, ((nbGetEosPointProb st.curR st.curP
            (max 1 ((st.nConsumed : ℤ) - st.offset)) - st.maxEosProb : ℝ) :
              WithBot ℝ))]) ∧
    (∀ st : NBState, st.usePointProbs = false → st.nConsumed ≠ 0 →
      st.prevEosProbs = [] →
      (nbPredictNext st).1 =
        [(EOS_ID, ((nbGetEosPointProb st.curR st.curP
            (max 1 ((st.nConsumed : ℤ) - st.offset)) : ℝ) : WithBot ℝ))]) ∧
    (∀ (st : NBState) (a : ℝ) (l : List ℝ),
      st.usePointProbs = false → st.nConsumed ≠ 0 →
      st.prevEosProbs = a :: l →
      (nbPredictNext st).1 =
        [(EOS_ID, ((nbGetEosPointProb st.curR st.curP
            (max 1 ((st.nConsumed : ℤ) - st.offset)) -
              Real.log (1 - Real.exp (logsumexp (a :: l))) : ℝ) : WithBot ℝ))]) ∧
    (nbGetEosPointProb 2 (1 / 2) (max 1 ((3 : ℤ) - 0)) =
      lgamma 5 - lgamma 4 - lgamma 2 +
        3 * Real.log (1 / 2) + 2 * Real.log (1 / 2)) := by
  refine ⟨?_, ?_, ?_, ?_, ?_⟩
  · intro r p n; rfl
  · intro st h1 h2
    unfold nbPredictNext nbGetEosProb
    rw [if_neg h2]
    simp [h1]
  · intro st h1 h2 hprev
    unfold nbPredictNext nbGetEosProb
    rw [if_neg h2]
    simp [h1, hprev]
  · intro st a l h1 h2 hprev
    unfold nbPredictNext nbGetEosProb
    rw [if_neg h2]
    simp [h1, hprev]
  · have hmax : (max 1 ((3 : ℤ) - 0)) = 3 := by decide
    rw [hmax]
    unfold nbGetEosPointProb
    norm_num

/-- C7 witness: the point-mode conjunct at a concrete state with r = 2,
p = 1/2, offset 0, three consumed tokens, and a zero normalizer. -/
theorem claim_C7_witness :
    (nbPredictNext
      { usePointProbs := true, offset := 0, curR := 2, curP := 1 / 2,
        maxEosProb := 0, nConsumed := 3, prevEosProbs := [] }).1 =
    [(EOS_ID, ((nbGetEosPointProb 2 (1 / 2) (max 1 ((3 : ℤ) - 0)) - 0 : ℝ) :
      WithBot ℝ))] :=
  claim_C7_pointpmf.2.1
    { usePointProbs := true, offset := 0, curR := 2, curP := 1 / 2,
      maxEosProb := 0, nConsumed := 3, prevEosProbs := [] }
    rfl (by decide)

/-! ## Claim C10 -/

/-- `splitWsAux` returns no words exactly when the accumulator is empty
and every remaining character is whitespace. -/
theorem splitWsAux_eq_nil_iff :
    ∀ (cs acc : List Char),
      splitWsAux cs acc = [] ↔ acc = [] ∧ ∀ c ∈ cs, pyIsSpace c = true := by
  intro cs
  induction cs with
  | nil =>
    intro acc
    rcases acc with _ | ⟨a, l⟩ <;> simp [splitWsAux]
  | cons c cs ih =>
    intro acc
    by_cases hsp : pyIsSpace c = true
    · rcases acc with _ | ⟨a, l⟩ <;> simp [splitWsAux, hsp, ih]
    · rcases acc with _ | ⟨a, l⟩ <;> simp [splitWsAux, hsp, ih]

/-- Python `split()` finds no words exactly when the string is empty or
all-whitespace. -/
theorem splitWs_eq_nil_iff (s : List Char) :
    splitWs s = [] ↔ ∀ c ∈ s, pyIsSpace c = true := by
  simp [splitWs, splitWsAux_eq_nil_iff]

/-- Stripping preserves the all-whitespace property in both
directions. -/
theorem pyStrip_space_iff (s : List Char) :
    (∀ c ∈ pyStrip s, pyIsSpace c = true) ↔
      (∀ c ∈ s, pyIsSpace c = true) := by
  constructor
  · intro h c hc
    have hsplit :
        s.takeWhile (fun c => pyIsSpace c) ++ s.dropWhile (fun c => pyIsSpace c) = s :=
      List.takeWhile_append_dropWhile (fun c => pyIsSpace c) s
    rw [← hsplit] at hc
    rcases List.mem_append.mp hc with h1 | h2
    · exact List.mem_takeWhile_imp h1
    · set m := s.dropWhile (fun c => pyIsSpace c) with hm
      have hm2 :
          m.reverse.takeWhile (fun c => pyIsSpace c) ++
            m.reverse.dropWhile (fun c => pyIsSpace c) = m.reverse :=
        List.takeWhile_append_dropWhile (fun c => pyIsSpace c) m.reverse
      have hcm : c ∈ m.reverse := List.mem_reverse.mpr h2
      rw [← hm2] at hcm
      rcases List.mem_append.mp hcm with h3 | h4
      · exact List.mem_takeWhile_imp h3
      · exact h c (by
          unfold pyStrip
          rw [← hm]
          exact List.mem_reverse.mpr h4)
  · intro h c hc
    apply h
    unfold pyStrip at hc
    have h1 := List.mem_reverse.mp hc
    have h2 : c ∈ (s.dropWhile (fun c => pyIsSpace c)).reverse :=
      (List.dropWhile_sublist _).mem h1
    have h3 := List.mem_reverse.mp h2
    exact (List.dropWhile_sublist _).mem h3

/-- `_analyse_sentence` fails exactly when `split()` finds no words. -/
theorem nbAnalyseSentence_eq_none_iff (s : List Char) :
    nbAnalyseSentence s = none ↔ splitWs s = [] := by
  unfold nbAnalyseSentence
  by_cases h : splitWs s = []
  · simp [h]
  · have hne : ((splitWs s).length : ℚ) ≠ 0 := by
      simpa [List.length_eq_zero] using h
    simp [hne, h]

/-- `_extract_features` fails exactly when some (stripped) line fails
feature analysis. -/
theorem nbExtractFeatures_eq_none_iff :
    ∀ lines : List (List Char),
      nbExtractFeatures lines = none ↔
        ∃ l ∈ lines, nbAnalyseSentence (pyStrip l) = none := by
  intro lines
  induction lines with
  | nil => simp [nbExtractFeatures]
  | cons a t ih =>
    unfold nbExtractFeatures
    cases ha : nbAnalyseSentence (pyStrip a) with
    | none => simp [ha]
    | some v =>
      cases ht : nbExtractFeatures t with
      | none =>
        obtain ⟨l, hl, hnone⟩ := ih.mp ht
        exact iff_of_true rfl ⟨l, List.mem_cons_of_mem a hl, hnone⟩
      | some vs =>
        constructor
        · intro hcontra; exact absurd hcontra (by simp)
        · rintro ⟨l, hl, hnone⟩
          rcases List.mem_cons.mp hl with rfl | hl
          · rw [ha] at hnone; exact absurd hnone (by simp)
          · have hcontra : nbExtractFeatures t = none := ih.mpr ⟨l, hl, hnone⟩
            rw [ht] at hcontra
            exact absurd hcontra (by simp)

/-- C10: feature extraction computes the five features (char count,
word count, punctuation count, chars-per-word, punct-per-word) for
every line with at least one whitespace-separated word; a line with
zero words (empty or all-whitespace after stripping) makes the per-word
ratios divide by zero, so analysis — and hence `NBLengthPredictor`
construction — fails rather than producing a predictor. -/
theorem claim_C10_features :
    (∀ s : List Char, splitWs s ≠ [] →
      nbAnalyseSentence s = some
        [(s.length : ℚ), ((splitWs s).length : ℚ),
         (([',', '.', ':', ';', '-']).map (fun p => (s.count p : ℚ))).sum,
         (s.length : ℚ) / ((splitWs s).length : ℚ),
         (([',', '.', ':', ';', '-']).map (fun p => (s.count p : ℚ))).sum /
           ((splitWs s).length : ℚ)]) ∧
    (∀ s : List Char,
      nbAnalyseSentence s = none ↔ ∀ c ∈ s, pyIsSpace c = true) ∧
    (∀ lines : List (List Char),
      nbExtractFeatures lines = none ↔
        ∃ l ∈ lines, ∀ c ∈ l, pyIsSpace c = true) ∧
    (∀ (lines : List (List Char)) (mw : List ℚ) (b : Bool) (off : ℤ),
      (∃ l ∈ lines, ∀ c ∈ l, pyIsSpace c = true) →
      nbConstruct lines mw b off = none) := by
  have hana : ∀ s : List Char,
      nbAnalyseSentence s = none ↔ ∀ c ∈ s, pyIsSpace c = true := by
    intro s
    rw [nbAnalyseSentence_eq_none_iff, splitWs_eq_nil_iff]
  have hext : ∀ lines : List (List Char),
      nbExtractFeatures lines = none ↔
        ∃ l ∈ lines, ∀ c ∈ l, pyIsSpace c = true := by
    intro lines
    rw [nbExtractFeatures_eq_none_iff]
    refine exists_congr (fun l => and_congr_right (fun _ => ?_))
    rw [hana, pyStrip_space_iff]
  refine ⟨?_, hana, hext, ?_⟩
  · intro s h
    have hne : ((splitWs s).length : ℚ) ≠ 0 := by
      simpa [List.length_eq_zero] using h
    unfold nbAnalyseSentence
    simp [hne]
  · intro lines mw b off h
    have hex : nbExtractFeatures lines = none := (hext lines).mpr h
    unfold nbConstruct
    cases hw : nbMakeWeights mw <;> simp [hw, hex]

/-- C10 witness: a file whose second line is the single space
character fails construction, for any weight vector. -/
theorem claim_C10_witness :
    nbConstruct [['a'], [' ']] [1, 1] false 0 = none :=
  claim_C10_features.2.2.2 [['a'], [' ']] [1, 1] false 0
    ⟨[' '], by simp, by decide⟩

end Sgnmt
